import Mathlib

/-!
# Shallow embedding of the BlogSite backend's cross-entity consistency core

This file models, in Lean, the data model (Mongoose schemas) and the
store-mutating request handlers of the blogging backend, and proves or
refutes the specification claims about them.

Modelling conventions:
* MongoDB ObjectIds are modelled as `Nat`.
* Each Mongoose collection is a `List` of records inside a `DB` state.
* `async/await` sequencing becomes ordinary sequential state passing.
* A `try { ... } catch { ... }` whose body can fail at an external store
  call is modelled by an explicit failure-site parameter: the operation
  receives a flag (or an `Option step`) saying which store call throws,
  performs exactly the writes that precede the throwing call, and then
  follows the `catch` branch of the source.
* `bcrypt` hashing is an external collaborator (out of scope per the spec);
  it is modelled by `hashPw`, with `bcrypt.compare(plain, stored)`
  modelled as `hashPw plain == stored`.
-/

/-- The `type` enum of `notificationSchema`:
`enum: ['like', 'comment', 'subscribe', 'post_created']`. -/
inductive NotifType where
  | like
  | comment
  | subscribe
  | post_created
deriving DecidableEq, Repr

/-- A denormalized identity snapshot (firstName/lastName/picture), the data
the Consistency Propagator is supposed to rewrite. -/
structure Snapshot where
  firstName : String
  lastName : String
  profilePicture : String
deriving DecidableEq, Repr

/-- `userSchema`: email, password, firstName, lastName, dateOfBirth,
profilePicture (default ''), about (default ''), subscribers (ObjectId refs). -/
structure User where
  id : Nat
  email : String
  password : String
  firstName : String
  lastName : String
  dateOfBirth : Nat
  profilePicture : String
  about : String
  subscribers : List Nat
deriving DecidableEq, Repr

/-- `postSchema`: title, content (via the formatting setter), author ref,
denormalized firstName/lastName/profilePicture, likes (ObjectId refs),
image. `createdAt` models the `timestamps: true` option. -/
structure Post where
  id : Nat
  title : String
  content : String
  author : Nat
  firstName : String
  lastName : String
  profilePicture : String
  likes : List Nat
  image : String
  createdAt : Nat
deriving DecidableEq, Repr

/-- `commentSchema`: content, post ref, author ref, denormalized
firstName/lastName/profilePicture, createdAt. -/
structure Comment where
  id : Nat
  content : String
  post : Nat
  author : Nat
  firstName : String
  lastName : String
  profilePicture : String
  createdAt : Nat
deriving DecidableEq, Repr

/-- `notificationSchema`: recipient ref, sender ref, optional post ref,
type enum, read flag, createdAt.

Note: per the schema, `sender` is a plain `ObjectId` reference
(`sender: { type: mongoose.Schema.Types.ObjectId, ref: 'User', required: true }`).
No denormalized sender name/picture fields exist on a stored notification.
Where a route constructs a notification passing an embedded object
`sender: { _id, firstName, lastName, profilePicture }` (the subscribe route),
Mongoose's ObjectId cast extracts the `_id` and discards the other fields,
so the stored record again holds only the sender's id. -/
structure Notification where
  recipient : Nat
  sender : Nat
  post : Option Nat
  type : NotifType
  read : Bool
  createdAt : Nat
deriving DecidableEq, Repr

/-- The database state: one list per Mongoose collection. -/
structure DB where
  users : List User
  posts : List Post
  comments : List Comment
  notifications : List Notification
deriving DecidableEq, Repr

/-- Models bcrypt hashing. bcrypt is an external collaborator explicitly out
of scope for the spec's consistency core, so hashing is modelled as the
identity; `bcrypt.compare(plain, stored)` becomes `hashPw plain == stored`. -/
def hashPw (s : String) : String := s

/-- `User.findById(uid)`. -/
def findUser (db : DB) (uid : Nat) : Option User :=
  db.users.find? (fun v => v.id == uid)

/-- `Post.findById(pid)`. -/
def findPost (db : DB) (pid : Nat) : Option Post :=
  db.posts.find? (fun p => p.id == pid)

/-- `user.save()` for an already-loaded document: the stored record with the
same `_id` is replaced by the in-memory one. -/
def saveUser (db : DB) (u : User) : DB :=
  { db with users := db.users.map (fun v => if v.id == u.id then u else v) }

/-- `post.save()` for an already-loaded document. -/
def savePost (db : DB) (p : Post) : DB :=
  { db with posts := db.posts.map (fun q => if q.id == p.id then p else q) }

/-- `new Notification({...}).save()` / part of `Notification.insertMany`. -/
def addNotif (db : DB) (n : Notification) : DB :=
  { db with notifications := db.notifications ++ [n] }

/-- Models the MongoDB filter `{ 'sender._id': uid }` evaluated against a
stored notification. Per `notificationSchema`, `sender` holds a scalar
`ObjectId`, not an embedded document; MongoDB dot notation (`sender._id`)
only descends into embedded documents and arrays, so this filter matches no
stored notification, whatever `uid` is. -/
def senderDotIdMatches (_n : Notification) (_uid : Nat) : Bool := false

/-- The denormalized sender snapshot carried by a stored notification.
Per `notificationSchema` there are no sender name/picture fields on the
record (sender is a bare ObjectId ref), so no notification carries one. -/
def notifSenderSnapshot (_n : Notification) : Option Snapshot := none

/-!
## The content-formatting setter of `postSchema`

```
set: function(content) {
  return content
    .replace(/\*\*(.*?)\*\*/g, '<strong>$1</strong>')
    .replace(/\*(.*?)\*/g, '<em>$1</em>')
    .replace(/__(.*?)__/g, '<u>$1</u>');
}
```

Each pass is a global, left-to-right, lazy (non-greedy) replacement:
at each position the engine tries to match the opening marker, then the
shortest span of `.`-matching characters (i.e. not `'\n'`, since the regexes
lack the `s` flag) up to the earliest occurrence of the closing marker; on
failure it advances one character. The three passes run in order
(bold, then italic, then underline), each over the previous pass's output.
-/

/-- Lazy search for the closing marker `close`: returns the (shortest)
captured span and the remainder after the closing marker, or `none` if no
closing marker occurs before a newline or the end of input. -/
def findClose (close : List Char) : List Char → Option (List Char × List Char)
  | [] => none
  | c :: cs =>
    if close.isPrefixOf (c :: cs) then
      some ([], (c :: cs).drop close.length)
    else if c = '\n' then
      none
    else
      match findClose close cs with
      | none => none
      | some (cap, rest) => some (c :: cap, rest)

/-- One global replacement pass (`String.prototype.replace` with a `g`-flagged
lazy wrapped-span regex): scan left to right; wherever the opening marker
matches and a closing marker is lazily reachable, emit
`pre ++ captured ++ post` and resume after the match, else copy one character
and advance. `fuel` only serves to make the recursion structural: every
recursive call consumes at least one input character, so any `fuel ≥` the
input length makes the fuel-exhaustion branch unreachable. -/
def replaceGo (o c pre post : List Char) : Nat → List Char → List Char
  | _, [] => []
  | 0, s => s
  | fuel + 1, x :: xs =>
    if o ≠ [] ∧ c ≠ [] ∧ o.isPrefixOf (x :: xs) then
      match findClose c ((x :: xs).drop o.length) with
      | some (cap, rest) => pre ++ cap ++ post ++ replaceGo o c pre post fuel rest
      | none => x :: replaceGo o c pre post fuel xs
    else
      x :: replaceGo o c pre post fuel xs

/-- `s.replace(/o(.*?)c/g, pre $1 post)` with literal markers `o`, `c`. -/
def jsReplaceAll (o c pre post s : String) : String :=
  String.mk (replaceGo o.data c.data pre.data post.data s.data.length s.data)

/-- `.replace(/\*\*(.*?)\*\*/g, '<strong>$1</strong>')` -/
def fmtBold (s : String) : String :=
  jsReplaceAll "**" "**" "<strong>" "</strong>" s

/-- `.replace(/\*(.*?)\*/g, '<em>$1</em>')` -/
def fmtItalic (s : String) : String :=
  jsReplaceAll "*" "*" "<em>" "</em>" s

/-- `.replace(/__(.*?)__/g, '<u>$1</u>')` -/
def fmtUnderline (s : String) : String :=
  jsReplaceAll "__" "__" "<u>" "</u>" s

/-- The `content` setter of `postSchema`: bold pass, then italic pass, then
underline pass, applied once when the value is assigned. -/
def formatContent (s : String) : String :=
  fmtUnderline (fmtItalic (fmtBold s))

/-!
## Response types

One small inductive per route, modelling only the HTTP outcomes the route
can produce from the consistency core's point of view.
-/

/-- Outcomes of `PUT /update`: 500 ("Server error"), 400 ("Current password
is incorrect"), or 200 with a refreshed token. -/
inductive UpdRes where
  | serverError
  | wrongPassword
  | ok
deriving DecidableEq, Repr

/-- Outcomes of `POST /upload-avatar` (after a file was provided):
500 ("Error uploading avatar") or 200 with the image URL. -/
inductive AvatarRes where
  | err
  | ok (imageUrl : String)
deriving DecidableEq, Repr

/-- Outcomes of `PUT /subscribe/:userId`: 404, 400 ("Cannot subscribe to
yourself"), or 200 with the new membership state and subscriber count. -/
inductive SubRes where
  | notFound
  | badRequest
  | ok (isSubscribed : Bool) (subscriberCount : Nat)
deriving DecidableEq, Repr

/-- Outcomes of `DELETE /delete-account`: 500 ("Error deleting account")
or 200 ("Account deleted successfully"). -/
inductive DelRes where
  | err
  | ok
deriving DecidableEq, Repr

/-- Outcomes of `POST /` (create post): 401 from the auth middleware when the
token's user no longer exists, or 201 with the created post. -/
inductive CreateRes where
  | unauthorized
  | created (p : Post)
deriving DecidableEq, Repr

/-- Outcomes of `PUT /:id/like`: 404 or 200 with the like list and state. -/
inductive LikeRes where
  | notFound
  | ok (likes : List Nat) (isLiked : Bool)
deriving DecidableEq, Repr

/-!
## `PUT /update` (updateProfile)

The whole handler body sits in a single `try/catch`; an exception thrown by
either `Post.updateMany` or `Comment.updateMany` is caught by the outer
`catch` and answered with 500, after `user.save()` has already committed.
`failPosts`/`failComments` say whether the corresponding `updateMany` throws.
-/

/-- The handler body after password verification. `u` is the in-memory user
document (password already rewritten if a password change was requested). -/
def updateProfileCore (db : DB) (u : User) (me : Nat)
    (firstName lastName about : String) (profilePicture : Option String)
    (failPosts failComments : Bool) : DB × UpdRes :=
  let isNameChanged := !(u.firstName == firstName) || !(u.lastName == lastName)
  let u1 := { u with
    firstName := firstName
    lastName := lastName
    about := about
    profilePicture := match profilePicture with
      | some p => p
      | none => u.profilePicture }
  let db1 := saveUser db u1
  if isNameChanged then
    if failPosts then (db1, UpdRes.serverError)
    else
      let newPic := match profilePicture with
        | some p => p
        | none => u1.profilePicture
      let db2 := { db1 with posts := db1.posts.map (fun p =>
        if p.author == me then
          { p with firstName := firstName, lastName := lastName, profilePicture := newPic }
        else p) }
      if failComments then (db2, UpdRes.serverError)
      else
        let db3 := { db2 with comments := db2.comments.map (fun c =>
          if c.author == me then
            { c with firstName := firstName, lastName := lastName, profilePicture := newPic }
          else c) }
        (db3, UpdRes.ok)
  else (db1, UpdRes.ok)

/-- `PUT /update`. `passwordChange = some (current, new)` models a request
carrying `currentPassword`/`newPassword`. A missing user makes the handler
throw on the first field access, answered 500 by the outer catch. Note the
handler never touches the Notification store. -/
def updateProfile (db : DB) (me : Nat) (firstName lastName about : String)
    (passwordChange : Option (String × String)) (profilePicture : Option String)
    (failPosts failComments : Bool) : DB × UpdRes :=
  match findUser db me with
  | none => (db, UpdRes.serverError)
  | some u =>
    match passwordChange with
    | some (cur, new) =>
      if hashPw cur == u.password then
        updateProfileCore db { u with password := hashPw new } me
          firstName lastName about profilePicture failPosts failComments
      else (db, UpdRes.wrongPassword)
    | none =>
      updateProfileCore db u me firstName lastName about profilePicture
        failPosts failComments

/-!
## `POST /upload-avatar` (setPicture)

The four store writes (user record, posts, comments, notifications) sit in
an inner `try/catch` whose catch only logs ("Continue execution even if
updating references fails"); the handler then answers 200 with the image URL
regardless. `failAt` names the store write that throws (everything before it
is committed, everything from it on is skipped). The Cloudinary upload
precedes all store writes; `uploadFails` models its failure (outer catch,
500, no state change).
-/

inductive AvatarStep where
  | userStep
  | postStep
  | commentStep
  | notifStep
deriving DecidableEq, Repr

/-- `POST /upload-avatar`. -/
def uploadAvatar (db : DB) (me : Nat) (url : String)
    (failAt : Option AvatarStep) (uploadFails : Bool) : DB × AvatarRes :=
  if uploadFails then (db, AvatarRes.err)
  else if failAt = some AvatarStep.userStep then (db, AvatarRes.ok url)
  else
    let db1 := { db with users := db.users.map (fun v =>
      if v.id == me then { v with profilePicture := url } else v) }
    if failAt = some AvatarStep.postStep then (db1, AvatarRes.ok url)
    else
      let db2 := { db1 with posts := db1.posts.map (fun p =>
        if p.author == me then { p with profilePicture := url } else p) }
      if failAt = some AvatarStep.commentStep then (db2, AvatarRes.ok url)
      else
        let db3 := { db2 with comments := db2.comments.map (fun c =>
          if c.author == me then { c with profilePicture := url } else c) }
        if failAt = some AvatarStep.notifStep then (db3, AvatarRes.ok url)
        else
          -- `Notification.updateMany({ 'sender._id': me }, { 'sender.profilePicture': url })`:
          -- the filter never matches a stored notification (see
          -- `senderDotIdMatches`), and the schema has no `sender.profilePicture`
          -- path to set, so every record is left as it is.
          let db4 := { db3 with notifications := db3.notifications.map (fun n =>
            if senderDotIdMatches n me then n else n) }
          (db4, AvatarRes.ok url)

/-!
## `PUT /subscribe/:userId` (toggleSubscription)

Order of effects in the source: look the target up (404 if absent), reject
self-subscription (400), test membership via
`subscribers.some(id => id.toString() === currentUserId)`, then either
filter the acting user out (unsubscribe) or push it and create a `subscribe`
notification inside an inner try/catch (failure swallowed), and finally
`userToSubscribe.save()`. -/
def toggleSubscription (db : DB) (me target : Nat) (now : Nat)
    (notifFails : Bool) : DB × SubRes :=
  match findUser db target with
  | none => (db, SubRes.notFound)
  | some t =>
    if me == target then (db, SubRes.badRequest)
    else
      let isSubscribed := t.subscribers.any (fun s => s == me)
      if isSubscribed then
        let t1 := { t with subscribers := t.subscribers.filter (fun s => !(s == me)) }
        (saveUser db t1, SubRes.ok false t1.subscribers.length)
      else
        let t1 := { t with subscribers := t.subscribers ++ [me] }
        let db1 :=
          if notifFails then db
          else addNotif db
            { recipient := t.id, sender := me, post := none
              type := NotifType.subscribe, read := false, createdAt := now }
        (saveUser db1 t1, SubRes.ok true t1.subscribers.length)

/-!
## `DELETE /delete-account` (deleteAccount)

All seven cascade steps sit in one `try/catch`: the first store call that
throws aborts the handler, skips every remaining step and answers 500.
`failAt` names the throwing step (`none` = every call succeeds).

The notification step is
`Notification.deleteMany({ $or: [{ 'sender._id': userId }, { recipient: userId }] })`;
as `sender` is a scalar ObjectId in the schema, the first disjunct matches
nothing (see `senderDotIdMatches`) and only recipient-matching notifications
are removed. (The `pre('remove')` hook on `userSchema` duplicates this
cascade but is never triggered: `User.findByIdAndDelete` does not fire
document `remove` middleware.) -/

inductive DelStep where
  | commentsOfPosts
  | posts
  | ownComments
  | notifs
  | subs
  | userRec
deriving DecidableEq, Repr

/-- `DELETE /delete-account`. -/
def deleteAccount (db : DB) (me : Nat) (failAt : Option DelStep) : DB × DelRes :=
  if failAt = some DelStep.commentsOfPosts then (db, DelRes.err)
  else
    let userPostIds := (db.posts.filter (fun p => p.author == me)).map (fun p => p.id)
    let db1 := { db with
      comments := db.comments.filter (fun c => !(userPostIds.any (fun i => i == c.post))) }
    if failAt = some DelStep.posts then (db1, DelRes.err)
    else
      let db2 := { db1 with posts := db1.posts.filter (fun p => !(p.author == me)) }
      if failAt = some DelStep.ownComments then (db2, DelRes.err)
      else
        let db3 := { db2 with comments := db2.comments.filter (fun c => !(c.author == me)) }
        if failAt = some DelStep.notifs then (db3, DelRes.err)
        else
          let db4 := { db3 with notifications := db3.notifications.filter (fun n =>
            !(senderDotIdMatches n me || n.recipient == me)) }
          if failAt = some DelStep.subs then (db4, DelRes.err)
          else
            let db5 := { db4 with users := db4.users.map (fun v =>
              { v with subscribers := v.subscribers.filter (fun s => !(s == me)) }) }
            if failAt = some DelStep.userRec then (db5, DelRes.err)
            else
              let db6 := { db5 with users := db5.users.filter (fun v => !(v.id == me)) }
              (db6, DelRes.ok)

/-!
## `POST /` on the posts router (createPost)

The post is built from the authenticated user's current record (the auth
middleware loads the full document) and saved; then, in an inner try/catch
whose failure is swallowed, one `post_created` notification per identity in
the author's subscriber list is inserted. -/

/-- The notification `createPost` fans out to one subscriber. -/
def mkPostNotif (sub me pid now : Nat) : Notification :=
  { recipient := sub, sender := me, post := some pid
    type := NotifType.post_created, read := false, createdAt := now }

/-- `POST /` (create post). `newPid` is the ObjectId minted for the new post;
`notifFails` says whether the notification fan-out throws (swallowed). -/
def createPost (db : DB) (me : Nat) (title raw image : String)
    (now newPid : Nat) (notifFails : Bool) : DB × CreateRes :=
  match findUser db me with
  | none => (db, CreateRes.unauthorized)
  | some u =>
    let post : Post :=
      { id := newPid, title := title, content := formatContent raw
        author := me, firstName := u.firstName, lastName := u.lastName
        profilePicture := u.profilePicture, likes := [], image := image
        createdAt := now }
    let db1 := { db with posts := db.posts ++ [post] }
    let db2 :=
      if notifFails then db1
      else { db1 with notifications :=
        db1.notifications ++ u.subscribers.map (fun s => mkPostNotif s me newPid now) }
    (db2, CreateRes.created post)

/-!
## `PUT /:id/like` (toggleLike)

`userLiked = post.likes.includes(user)`; if liked, the like is filtered out
and no notification is touched; otherwise the like is pushed and, unless the
acting user is the post's author, one `like` notification to the author is
saved; finally `post.save()`. -/

/-- The notification `toggleLike` sends to the post's author on a new like. -/
def mkLikeNotif (author me pid now : Nat) : Notification :=
  { recipient := author, sender := me, post := some pid
    type := NotifType.like, read := false, createdAt := now }

/-- `PUT /:id/like`. -/
def toggleLike (db : DB) (me pid now : Nat) : DB × LikeRes :=
  match findPost db pid with
  | none => (db, LikeRes.notFound)
  | some p =>
    let isOwnPost := p.author == me
    let userLiked := p.likes.any (fun x => x == me)
    if userLiked then
      let p1 := { p with likes := p.likes.filter (fun x => !(x == me)) }
      (savePost db p1, LikeRes.ok p1.likes false)
    else
      let p1 := { p with likes := p.likes ++ [me] }
      let db1 := if isOwnPost then db else addNotif db (mkLikeNotif p.author me pid now)
      (savePost db1 p1, LikeRes.ok p1.likes true)

/-!
## `GET /` on the notifications router (listNotifications)

`Notification.find({ recipient }).sort({ createdAt: -1 }).limit(10)` plus
`countDocuments({ recipient, read: false })`. The store's descending sort is
modelled by `List.insertionSort` under the "newer or equal first" relation. -/

/-- "Newest first": `a` may precede `b` when `b.createdAt ≤ a.createdAt`. -/
def notifDesc (a b : Notification) : Prop := b.createdAt ≤ a.createdAt

instance : DecidableRel notifDesc :=
  fun a b => inferInstanceAs (Decidable (b.createdAt ≤ a.createdAt))

instance : IsTotal Notification notifDesc :=
  ⟨fun a b => (Nat.le_total a.createdAt b.createdAt).symm⟩

instance : IsTrans Notification notifDesc :=
  ⟨fun _ _ _ hab hbc => Nat.le_trans hbc hab⟩

/-- `GET /` (notifications): the ten newest notifications of the recipient,
plus the count of all their unread notifications. -/
def listNotifications (db : DB) (me : Nat) : List Notification × Nat :=
  let mine := db.notifications.filter (fun n => n.recipient == me)
  ((List.insertionSort notifDesc mine).take 10,
   (db.notifications.filter (fun n => n.recipient == me && n.read == false)).length)

/-!
## Concrete sample records (used by witnesses and counterexamples)
-/

/-- A sample user record. -/
def mkUser (i : Nat) (fn ln : String) (subs : List Nat) : User :=
  { id := i, email := "", password := "pw", firstName := fn, lastName := ln
    dateOfBirth := 0, profilePicture := "", about := "", subscribers := subs }

/-- A sample post record. -/
def mkPost (i au : Nat) (fn ln : String) (likes : List Nat) : Post :=
  { id := i, title := "t", content := "c", author := au, firstName := fn
    lastName := ln, profilePicture := "", likes := likes, image := ""
    createdAt := 0 }

/-- A sample comment record. -/
def mkComment (i pid au : Nat) : Comment :=
  { id := i, content := "c", post := pid, author := au, firstName := "f"
    lastName := "l", profilePicture := "", createdAt := 0 }

/-- A sample notification record. -/
def mkNotif (rcpt snd : Nat) (p : Option Nat) (ty : NotifType) : Notification :=
  { recipient := rcpt, sender := snd, post := p, type := ty, read := false
    createdAt := 0 }

/-!
## Concrete states used by witnesses and counterexamples
-/

/-- C1 evidence state: user 1 with a post, comments in both directions, and
notifications both sent and received by user 1. -/
def dbC1 : DB :=
  { users := [mkUser 1 "Ann" "Lee" [], mkUser 2 "Bob" "May" [1]]
    posts := [mkPost 10 1 "Ann" "Lee" [], mkPost 11 2 "Bob" "May" []]
    comments := [mkComment 20 10 2, mkComment 21 11 1]
    notifications := [mkNotif 2 1 (some 11) NotifType.like,
                      mkNotif 1 2 (some 10) NotifType.comment] }

/-- C2 counterexample state: a notification whose sender is user 1. -/
def dbC2 : DB :=
  { users := [mkUser 1 "Ann" "Lee" [], mkUser 2 "Bob" "May" []]
    posts := [mkPost 10 1 "Ann" "Lee" []]
    comments := []
    notifications := [mkNotif 2 1 none NotifType.subscribe] }

/-- C3 counterexample state. -/
def dbC3 : DB :=
  { users := [mkUser 1 "Ann" "Lee" []]
    posts := [mkPost 10 1 "Ann" "Lee" []]
    comments := []
    notifications := [] }

/-- C4 counterexample state. -/
def dbC4 : DB :=
  { users := [mkUser 1 "Ann" "Lee" [], mkUser 2 "Bob" "May" [1]]
    posts := []
    comments := []
    notifications := [mkNotif 1 2 none NotifType.subscribe] }

/-- C5 witness state. -/
def dbC5w : DB :=
  { users := [mkUser 1 "Ann" "Lee" [], mkUser 2 "Bob" "May" [3]]
    posts := [], comments := [], notifications := [] }

/-- Witness state shared by the C2 and C3 amended theorems. -/
def dbC2w : DB :=
  { users := [mkUser 1 "Ann" "Lee" []]
    posts := [mkPost 10 1 "Ann" "Lee" []]
    comments := [mkComment 20 10 1]
    notifications := [mkNotif 2 1 none NotifType.subscribe] }

/-- C7 witness state: author 1 with subscribers 2 and 3. -/
def dbC7w : DB :=
  { users := [mkUser 1 "Ann" "Lee" [2, 3], mkUser 2 "Bob" "May" [], mkUser 3 "Cy" "Nu" []]
    posts := [], comments := [], notifications := [] }

/-- C8 witness state: a post authored by user 2. -/
def dbC8w : DB :=
  { users := [mkUser 1 "Ann" "Lee" [], mkUser 2 "Bob" "May" []]
    posts := [mkPost 10 2 "Bob" "May" []]
    comments := [], notifications := [] }

/-- C9 witness state. -/
def dbC9w : DB :=
  { users := [mkUser 1 "Ann" "Lee" []]
    posts := [], comments := [], notifications := [] }

/-!
## General helper lemmas about the store model
-/

/-- A `find?` by key over a keyed in-place update (`updateMany`-style map)
returns the updated record. -/
theorem find?_update_key {α : Type} (key : α → Nat) (uid : Nat) (f : α → α)
    (hf : ∀ v, key v = uid → key (f v) = uid) (l : List α) :
    (l.map (fun v => if key v == uid then f v else v)).find? (fun v => key v == uid)
      = (l.find? (fun v => key v == uid)).map f := by
  induction l with
  | nil => rfl
  | cons v vs ih =>
    by_cases h : key v = uid
    · simp [List.find?_cons, h, hf v h]
    · simpa [List.find?_cons, h] using ih

/-- `any` of a composition with a predicate-preserving function. -/
theorem any_comp_id {α : Type} (p : α → Bool) (f : α → α)
    (hf : ∀ v, p (f v) = p v) (l : List α) :
    l.any (fun v => p (f v)) = l.any p := by
  induction l with
  | nil => rfl
  | cons x xs ih => simp [List.any_cons, hf, ih]

/-- `any` is unchanged by mapping a function that preserves the predicate. -/
theorem any_map_id {α : Type} (p : α → Bool) (f : α → α)
    (hf : ∀ v, p (f v) = p v) (l : List α) :
    (l.map f).any p = l.any p := by
  rw [List.any_map]
  exact any_comp_id p f hf l

/-- Filtering an element out shortens a list by its number of occurrences. -/
theorem length_filter_ne (l : List Nat) (a : Nat) :
    (l.filter (fun x => !(x == a))).length = l.length - l.count a := by
  induction l with
  | nil => rfl
  | cons x xs ih =>
    by_cases h : x = a
    · subst h
      simp [List.filter_cons, List.count_cons, ih]
    · simp [List.filter_cons, List.count_cons, h, ih]
      have : xs.count a ≤ xs.length := List.count_le_length a xs
      omega

/-- A successful membership test bounds the count from below. -/
theorem one_le_count_of_any (l : List Nat) (a : Nat)
    (h : l.any (fun x => x == a) = true) : 1 ≤ l.count a := by
  simp only [List.any_eq_true, beq_iff_eq] at h
  obtain ⟨x, hx, rfl⟩ := h
  exact List.one_le_count_iff.mpr hx

/-- `findById` returns a record bearing the requested id. -/
theorem findUser_id {db : DB} {uid : Nat} {u : User}
    (h : findUser db uid = some u) : u.id = uid := by
  have := List.find?_some h
  simpa using this

/-- Lookup after `save`: the saved document is what a lookup by its id sees. -/
theorem findUser_saveUser (db : DB) (u : User) :
    findUser (saveUser db u) u.id = (findUser db u.id).map (fun _ => u) :=
  find?_update_key User.id u.id (fun _ => u) (fun _ _ => rfl) db.users

/-- Lookup after `save` for posts. -/
theorem findPost_savePost (db : DB) (p : Post) :
    findPost (savePost db p) p.id = (findPost db p.id).map (fun _ => p) :=
  find?_update_key Post.id p.id (fun _ => p) (fun _ _ => rfl) db.posts

/-- Inserting a notification does not disturb user lookups. -/
theorem findUser_addNotif (db : DB) (n : Notification) (uid : Nat) :
    findUser (addNotif db n) uid = findUser db uid := rfl

/-- Lookup after `save`, stated at an arbitrary id equal to the document id. -/
theorem findUser_saveUser_at (db : DB) (u : User) (uid : Nat) (hid : u.id = uid) :
    findUser (saveUser db u) uid = (findUser db uid).map (fun _ => u) := by
  subst hid
  exact findUser_saveUser db u

/-- `findById` returns a record bearing the requested id (posts). -/
theorem findPost_id {db : DB} {pid : Nat} {p : Post}
    (h : findPost db pid = some p) : p.id = pid := by
  have := List.find?_some h
  simpa using this

/-- Lookup after `save` for posts, at an arbitrary equal id. -/
theorem findPost_savePost_at (db : DB) (p : Post) (pid : Nat) (hid : p.id = pid) :
    findPost (savePost db p) pid = (findPost db pid).map (fun _ => p) := by
  subst hid
  exact findPost_savePost db p

/-- A user lookup after the avatar route's `User.findByIdAndUpdate`. -/
theorem find?_users_setPicture (l : List User) (me : Nat) (url : String) :
    (l.map (fun v => if v.id == me then { v with profilePicture := url } else v)).find?
        (fun v => v.id == me)
      = (l.find? (fun v => v.id == me)).map (fun v => { v with profilePicture := url }) :=
  find?_update_key User.id me (fun v => { v with profilePicture := url })
    (fun _ h => h) l

/-- A membership test for an absent element is false. -/
theorem any_beq_false_of_not_mem (l : List Nat) (a : Nat) (h : a ∉ l) :
    l.any (fun x => x == a) = false := by
  cases hl : l.any (fun x => x == a) with
  | false => rfl
  | true =>
    exfalso
    apply h
    simp only [List.any_eq_true, beq_iff_eq] at hl
    obtain ⟨x, hx, rfl⟩ := hl
    exact hx

/-!
## The claims
-/

/-- C1: refuted on the code as written (the claim matches the code's intent and
its inline comment, but not its behavior). `deleteAccount` is claimed to leave
zero Notifications whose sender or recipient is the deleted user; the route's
filter `{ $or: [{ 'sender._id': userId }, { recipient: userId }] }` can only
match on `recipient`, because `notificationSchema` stores `sender` as a scalar
ObjectId that dot notation cannot descend into. Deleting user 1 from `dbC1`
removes the user, their posts, all comments, the received notification and the
subscriber entry, but the notification SENT by user 1 (to user 2) survives with
a dangling sender reference. -/
theorem deleteAccount_dangling_sender_notification :
    deleteAccount dbC1 1 none
      = ({ users := [mkUser 2 "Bob" "May" []]
           posts := [mkPost 11 2 "Bob" "May" []]
           comments := []
           notifications := [mkNotif 2 1 (some 11) NotifType.like] }, DelRes.ok)
    ∧ (mkNotif 2 1 (some 11) NotifType.like).sender = 1
    ∧ ((deleteAccount dbC1 1 none).1.notifications.filter
        (fun n => n.sender == 1)).length = 1 := by
  refine ⟨rfl, rfl, rfl⟩

/-- C2 counterexample: after a successful `updateProfile` that changes user 1's
display name, the notification whose sender is user 1 is byte-for-byte
unchanged — and a stored notification carries no sender name/picture snapshot
at all (`notifSenderSnapshot` is `none`), so it cannot carry the new
firstName/lastName/picture snapshot the claim asserts. -/
theorem updateProfile_notification_counterexample :
    (updateProfile dbC2 1 "Bea" "Lee" "" none none false false).2 = UpdRes.ok
    ∧ (updateProfile dbC2 1 "Bea" "Lee" "" none none false false).1.notifications
        = [mkNotif 2 1 none NotifType.subscribe]
    ∧ (mkNotif 2 1 none NotifType.subscribe).sender = 1
    ∧ (notifSenderSnapshot (mkNotif 2 1 none NotifType.subscribe)).isNone = true := by
  refine ⟨rfl, rfl, rfl, rfl⟩

/-- C2 (amended): after `updateProfile(U)` with a changed display name
completes successfully, every Post authored by U and every Comment authored by
U carries the new firstName/lastName/picture snapshot; the Notification store
is left entirely unchanged (`PUT /update` performs no notification update, and
the notification schema stores no sender snapshot to rewrite). -/
theorem updateProfile_propagates (db : DB) (me : Nat) (u : User)
    (fn ln ab : String) (pic : Option String)
    (hu : findUser db me = some u)
    (hname : u.firstName ≠ fn ∨ u.lastName ≠ ln) :
    (updateProfile db me fn ln ab none pic false false).2 = UpdRes.ok
    ∧ (∀ p ∈ (updateProfile db me fn ln ab none pic false false).1.posts,
        p.author = me → p.firstName = fn ∧ p.lastName = ln
          ∧ p.profilePicture = pic.getD u.profilePicture)
    ∧ (∀ c ∈ (updateProfile db me fn ln ab none pic false false).1.comments,
        c.author = me → c.firstName = fn ∧ c.lastName = ln
          ∧ c.profilePicture = pic.getD u.profilePicture)
    ∧ (updateProfile db me fn ln ab none pic false false).1.notifications
        = db.notifications := by
  have hnb : (!(u.firstName == fn) || !(u.lastName == ln)) = true := by
    rcases hname with h | h <;> simp [h]
  have hbody : updateProfile db me fn ln ab none pic false false
      = updateProfileCore db u me fn ln ab pic false false := by
    unfold updateProfile
    rw [hu]
  rcases pic with _ | pv
  · have hposts : (updateProfileCore db u me fn ln ab none false false).1.posts
        = db.posts.map (fun a => if a.author == me then
            { a with firstName := fn, lastName := ln, profilePicture := u.profilePicture }
          else a) := by
      simp [updateProfileCore, hnb]
      rfl
    have hcomments : (updateProfileCore db u me fn ln ab none false false).1.comments
        = db.comments.map (fun a => if a.author == me then
            { a with firstName := fn, lastName := ln, profilePicture := u.profilePicture }
          else a) := by
      simp [updateProfileCore, hnb]
      rfl
    have hnotifs : (updateProfileCore db u me fn ln ab none false false).1.notifications
        = db.notifications := by
      simp [updateProfileCore, hnb]
      rfl
    have hres : (updateProfileCore db u me fn ln ab none false false).2 = UpdRes.ok := by
      simp [updateProfileCore, hnb]
    refine ⟨?_, ?_, ?_, ?_⟩
    · rw [hbody]
      exact hres
    · intro p hp hpa
      rw [hbody, hposts] at hp
      simp only [List.mem_map] at hp
      obtain ⟨a, _, rfl⟩ := hp
      by_cases hb : (a.author == me) = true
      · rw [if_pos hb]
        exact ⟨rfl, rfl, rfl⟩
      · rw [if_neg hb] at hpa
        exact absurd hpa (by simpa using hb)
    · intro c hc hca
      rw [hbody, hcomments] at hc
      simp only [List.mem_map] at hc
      obtain ⟨a, _, rfl⟩ := hc
      by_cases hb : (a.author == me) = true
      · rw [if_pos hb]
        exact ⟨rfl, rfl, rfl⟩
      · rw [if_neg hb] at hca
        exact absurd hca (by simpa using hb)
    · rw [hbody]
      exact hnotifs
  · have hposts : (updateProfileCore db u me fn ln ab (some pv) false false).1.posts
        = db.posts.map (fun a => if a.author == me then
            { a with firstName := fn, lastName := ln, profilePicture := pv }
          else a) := by
      simp [updateProfileCore, hnb]
      rfl
    have hcomments : (updateProfileCore db u me fn ln ab (some pv) false false).1.comments
        = db.comments.map (fun a => if a.author == me then
            { a with firstName := fn, lastName := ln, profilePicture := pv }
          else a) := by
      simp [updateProfileCore, hnb]
      rfl
    have hnotifs : (updateProfileCore db u me fn ln ab (some pv) false false).1.notifications
        = db.notifications := by
      simp [updateProfileCore, hnb]
      rfl
    have hres : (updateProfileCore db u me fn ln ab (some pv) false false).2 = UpdRes.ok := by
      simp [updateProfileCore, hnb]
    refine ⟨?_, ?_, ?_, ?_⟩
    · rw [hbody]
      exact hres
    · intro p hp hpa
      rw [hbody, hposts] at hp
      simp only [List.mem_map] at hp
      obtain ⟨a, _, rfl⟩ := hp
      by_cases hb : (a.author == me) = true
      · rw [if_pos hb]
        exact ⟨rfl, rfl, rfl⟩
      · rw [if_neg hb] at hpa
        exact absurd hpa (by simpa using hb)
    · intro c hc hca
      rw [hbody, hcomments] at hc
      simp only [List.mem_map] at hc
      obtain ⟨a, _, rfl⟩ := hc
      by_cases hb : (a.author == me) = true
      · rw [if_pos hb]
        exact ⟨rfl, rfl, rfl⟩
      · rw [if_neg hb] at hca
        exact absurd hca (by simpa using hb)
    · rw [hbody]
      exact hnotifs

/-- Witness for C2 (amended) at a concrete state. -/
theorem updateProfile_propagates_witness :
    (updateProfile dbC2w 1 "Bea" "Lee" "bio" none (some "p.png") false false).2 = UpdRes.ok
    ∧ (∀ p ∈ (updateProfile dbC2w 1 "Bea" "Lee" "bio" none (some "p.png") false false).1.posts,
        p.author = 1 → p.firstName = "Bea" ∧ p.lastName = "Lee"
          ∧ p.profilePicture = (some "p.png").getD (mkUser 1 "Ann" "Lee" []).profilePicture)
    ∧ (∀ c ∈ (updateProfile dbC2w 1 "Bea" "Lee" "bio" none (some "p.png") false false).1.comments,
        c.author = 1 → c.firstName = "Bea" ∧ c.lastName = "Lee"
          ∧ c.profilePicture = (some "p.png").getD (mkUser 1 "Ann" "Lee" []).profilePicture)
    ∧ (updateProfile dbC2w 1 "Bea" "Lee" "bio" none (some "p.png") false false).1.notifications
        = dbC2w.notifications :=
  updateProfile_propagates dbC2w 1 (mkUser 1 "Ann" "Lee" []) "Bea" "Lee" "bio" (some "p.png")
    rfl (Or.inl (by decide))

/-- C3 counterexample: in `updateProfile` the Posts/Comments bulk updates live
in the same try/catch as the primary mutation, so a failing `Post.updateMany`
makes the call return 500 — even though the User record update had already
committed (the returned state shows the new name). This refutes "never causes
the call to return a failure". -/
theorem updateProfile_propagation_failure_counterexample :
    (updateProfile dbC3 1 "Bea" "Lee" "" none none true false).2 = UpdRes.serverError
    ∧ findUser (updateProfile dbC3 1 "Bea" "Lee" "" none none true false).1 1
        = some { mkUser 1 "Ann" "Lee" [] with firstName := "Bea", lastName := "Lee", about := "" } := by
  refine ⟨rfl, rfl⟩

/-- C3 (amended): a denormalization bulk-update failure never rolls back the
already-committed User record update, but only `upload-avatar` swallows such
failures (success response regardless of which reference write throws, and the
committed picture update survives propagation-step failures); `updateProfile`
surfaces a failure of either its Posts bulk update or its Comments bulk update
as a 500 — in both cases with the committed User update kept. -/
theorem propagation_failure_handling (db : DB) (me : Nat) (u : User)
    (fn ln ab url : String) (pic : Option String) (fc : Bool)
    (failAt : Option AvatarStep)
    (hu : findUser db me = some u)
    (hname : u.firstName ≠ fn ∨ u.lastName ≠ ln) :
    ((updateProfile db me fn ln ab none pic true fc).2 = UpdRes.serverError
      ∧ (∃ v, findUser (updateProfile db me fn ln ab none pic true fc).1 me = some v
          ∧ v.firstName = fn ∧ v.lastName = ln))
    ∧ ((updateProfile db me fn ln ab none pic false true).2 = UpdRes.serverError
      ∧ (∃ v, findUser (updateProfile db me fn ln ab none pic false true).1 me = some v
          ∧ v.firstName = fn ∧ v.lastName = ln))
    ∧ (uploadAvatar db me url failAt false).2 = AvatarRes.ok url
    ∧ ((failAt = some AvatarStep.postStep ∨ failAt = some AvatarStep.commentStep
        ∨ failAt = some AvatarStep.notifStep ∨ failAt = none) →
        ∃ v, findUser (uploadAvatar db me url failAt false).1 me = some v
          ∧ v.profilePicture = url) := by
  have hme : u.id = me := findUser_id hu
  have hnb : (!(u.firstName == fn) || !(u.lastName == ln)) = true := by
    rcases hname with h | h <;> simp [h]
  have hbody : updateProfile db me fn ln ab none pic true fc
      = updateProfileCore db u me fn ln ab pic true fc := by
    unfold updateProfile
    rw [hu]
  have hbody2 : updateProfile db me fn ln ab none pic false true
      = updateProfileCore db u me fn ln ab pic false true := by
    unfold updateProfile
    rw [hu]
  refine ⟨?_, ?_, ?_, ?_⟩
  · rcases pic with _ | pv
    · refine ⟨by rw [hbody]; simp [updateProfileCore, hnb], ?_⟩
      have hu1 : (updateProfileCore db u me fn ln ab none true fc).1
          = saveUser db { u with firstName := fn, lastName := ln, about := ab } := by
        simp [updateProfileCore, hnb]
      rw [hbody, hu1]
      refine ⟨{ u with firstName := fn, lastName := ln, about := ab }, ?_, rfl, rfl⟩
      rw [findUser_saveUser_at _ _ me
        (show ({ u with firstName := fn, lastName := ln, about := ab } : User).id = me from hme), hu]
      rfl
    · refine ⟨by rw [hbody]; simp [updateProfileCore, hnb], ?_⟩
      have hu1 : (updateProfileCore db u me fn ln ab (some pv) true fc).1
          = saveUser db { u with
              firstName := fn, lastName := ln, about := ab, profilePicture := pv } := by
        simp [updateProfileCore, hnb]
      rw [hbody, hu1]
      refine ⟨{ u with firstName := fn, lastName := ln, about := ab, profilePicture := pv },
        ?_, rfl, rfl⟩
      rw [findUser_saveUser_at _ _ me
        (show ({ u with firstName := fn, lastName := ln, about := ab, profilePicture := pv } : User).id = me from hme), hu]
      rfl
  · rcases pic with _ | pv
    · refine ⟨by rw [hbody2]; simp [updateProfileCore, hnb], ?_⟩
      have hu2 : (updateProfileCore db u me fn ln ab none false true).1.users
          = (saveUser db { u with firstName := fn, lastName := ln, about := ab }).users := by
        simp [updateProfileCore, hnb]
      rw [hbody2]
      refine ⟨{ u with firstName := fn, lastName := ln, about := ab }, ?_, rfl, rfl⟩
      show (updateProfileCore db u me fn ln ab none false true).1.users.find?
          (fun v => v.id == me) = _
      rw [hu2]
      have h3 := findUser_saveUser_at db
        { u with firstName := fn, lastName := ln, about := ab } me
        (show ({ u with firstName := fn, lastName := ln, about := ab } : User).id = me from hme)
      rw [hu] at h3
      exact h3
    · refine ⟨by rw [hbody2]; simp [updateProfileCore, hnb], ?_⟩
      have hu2 : (updateProfileCore db u me fn ln ab (some pv) false true).1.users
          = (saveUser db { u with
              firstName := fn, lastName := ln, about := ab, profilePicture := pv }).users := by
        simp [updateProfileCore, hnb]
      rw [hbody2]
      refine ⟨{ u with firstName := fn, lastName := ln, about := ab, profilePicture := pv },
        ?_, rfl, rfl⟩
      show (updateProfileCore db u me fn ln ab (some pv) false true).1.users.find?
          (fun v => v.id == me) = _
      rw [hu2]
      have h3 := findUser_saveUser_at db
        { u with firstName := fn, lastName := ln, about := ab, profilePicture := pv } me
        (show ({ u with firstName := fn, lastName := ln, about := ab, profilePicture := pv } : User).id = me
          from hme)
      rw [hu] at h3
      exact h3
  · rcases failAt with _ | s
    · rfl
    · cases s <;> rfl
  · intro h
    have hu' : db.users.find? (fun v => v.id == me) = some u := hu
    rcases h with h | h | h | h <;> subst h
    · have e : findUser (uploadAvatar db me url (some AvatarStep.postStep) false).1 me
          = (db.users.map (fun v =>
              if v.id == me then { v with profilePicture := url } else v)).find?
              (fun v => v.id == me) := rfl
      refine ⟨{ u with profilePicture := url }, ?_, rfl⟩
      rw [e, find?_users_setPicture, hu']
      rfl
    · have e : findUser (uploadAvatar db me url (some AvatarStep.commentStep) false).1 me
          = (db.users.map (fun v =>
              if v.id == me then { v with profilePicture := url } else v)).find?
              (fun v => v.id == me) := rfl
      refine ⟨{ u with profilePicture := url }, ?_, rfl⟩
      rw [e, find?_users_setPicture, hu']
      rfl
    · have e : findUser (uploadAvatar db me url (some AvatarStep.notifStep) false).1 me
          = (db.users.map (fun v =>
              if v.id == me then { v with profilePicture := url } else v)).find?
              (fun v => v.id == me) := rfl
      refine ⟨{ u with profilePicture := url }, ?_, rfl⟩
      rw [e, find?_users_setPicture, hu']
      rfl
    · have e : findUser (uploadAvatar db me url none false).1 me
          = (db.users.map (fun v =>
              if v.id == me then { v with profilePicture := url } else v)).find?
              (fun v => v.id == me) := rfl
      refine ⟨{ u with profilePicture := url }, ?_, rfl⟩
      rw [e, find?_users_setPicture, hu']
      rfl

/-- Witness for C3 (amended) at a concrete state. -/
theorem propagation_failure_handling_witness :
    ((updateProfile dbC2w 1 "Bea" "Lee" "bio" none (some "p.png") true false).2
        = UpdRes.serverError
      ∧ (∃ v, findUser (updateProfile dbC2w 1 "Bea" "Lee" "bio" none (some "p.png") true false).1 1
          = some v ∧ v.firstName = "Bea" ∧ v.lastName = "Lee"))
    ∧ ((updateProfile dbC2w 1 "Bea" "Lee" "bio" none (some "p.png") false true).2
        = UpdRes.serverError
      ∧ (∃ v, findUser (updateProfile dbC2w 1 "Bea" "Lee" "bio" none (some "p.png") false true).1 1
          = some v ∧ v.firstName = "Bea" ∧ v.lastName = "Lee"))
    ∧ (uploadAvatar dbC2w 1 "u.png" (some AvatarStep.postStep) false).2 = AvatarRes.ok "u.png"
    ∧ ((some AvatarStep.postStep = some AvatarStep.postStep
        ∨ some AvatarStep.postStep = some AvatarStep.commentStep
        ∨ some AvatarStep.postStep = some AvatarStep.notifStep
        ∨ some AvatarStep.postStep = none) →
        ∃ v, findUser (uploadAvatar dbC2w 1 "u.png" (some AvatarStep.postStep) false).1 1
          = some v ∧ v.profilePicture = "u.png") :=
  propagation_failure_handling dbC2w 1 (mkUser 1 "Ann" "Lee" []) "Bea" "Lee" "bio" "u.png"
    (some "p.png") false (some AvatarStep.postStep) rfl (Or.inl (by decide))

/-- C4 counterexample: with the user-comments deletion step failing, the
response is an overall failure (not swallowed) and none of the remaining steps
ran: the recipient notification, the subscriber entry, and the User record all
survive. This refutes per-step swallowing with continued execution. -/
theorem deleteAccount_midstep_failure_counterexample :
    (deleteAccount dbC4 1 (some DelStep.ownComments)).2 = DelRes.err
    ∧ (deleteAccount dbC4 1 (some DelStep.ownComments)).1.notifications
        = [mkNotif 1 2 none NotifType.subscribe]
    ∧ ((deleteAccount dbC4 1 (some DelStep.ownComments)).1.users.any
        (fun v => v.id == 1)) = true
    ∧ ((deleteAccount dbC4 1 (some DelStep.ownComments)).1.users.any
        (fun v => v.subscribers.any (fun x => x == 1))) = true := by
  refine ⟨rfl, rfl, rfl, rfl⟩

/-- C4 (amended): all seven cascade steps share one try/catch, so a failure of
ANY step (not just the final user-record deletion) aborts the remaining steps
and is reported to the caller as an overall failure; in particular the User
record itself is never deleted once some step has failed. -/
theorem deleteAccount_step_failure_aborts (db : DB) (me : Nat) (s : DelStep) :
    (deleteAccount db me (some s)).2 = DelRes.err
    ∧ ((deleteAccount db me (some s)).1.users.any (fun v => v.id == me))
        = (db.users.any (fun v => v.id == me)) := by
  cases s <;> simp [deleteAccount]
  exact any_comp_id _ _ (fun _ => rfl) _

/-- C5: for distinct users A and T with T present in the store (and T's
subscriber list containing A at most once, the invariant the code maintains),
calling `toggleSubscription(A, T)` twice in a row restores T's subscriber set
to its original membership and its original length, and the second response
reports the original membership state with the original subscriber count. -/
theorem toggleSubscription_twice (db : DB) (A T now1 now2 : Nat) (f1 f2 : Bool)
    (t : User) (hT : findUser db T = some t) (hAT : A ≠ T)
    (hcnt : t.subscribers.count A ≤ 1) :
    ∃ t2 : User,
      findUser (toggleSubscription (toggleSubscription db A T now1 f1).1 A T now2 f2).1 T
        = some t2
      ∧ (∀ x, x ∈ t2.subscribers ↔ x ∈ t.subscribers)
      ∧ t2.subscribers.length = t.subscribers.length
      ∧ (toggleSubscription (toggleSubscription db A T now1 f1).1 A T now2 f2).2
          = SubRes.ok (t.subscribers.any (fun s => s == A)) t.subscribers.length := by
  have htid : t.id = T := findUser_id hT
  have hAb : (A == T) = false := by simp [hAT]
  by_cases hsub : t.subscribers.any (fun s => s == A) = true
  · -- originally subscribed: first call unsubscribes, second re-subscribes
    have hAm : A ∈ t.subscribers := by
      simp only [List.any_eq_true, beq_iff_eq] at hsub
      obtain ⟨x, hx, rfl⟩ := hsub
      exact hx
    have hcount : t.subscribers.count A = 1 :=
      le_antisymm hcnt (one_le_count_of_any _ _ hsub)
    set t1 : User := { t with subscribers := t.subscribers.filter (fun s => !(s == A)) }
      with ht1
    have ht1id : t1.id = T := htid
    have step1 : toggleSubscription db A T now1 f1
        = (saveUser db t1, SubRes.ok false t1.subscribers.length) := by
      simp only [toggleSubscription, hT, hAb, hsub]
      rfl
    have hf1 : findUser (saveUser db t1) T = some t1 := by
      rw [findUser_saveUser_at db t1 T ht1id, hT]
      rfl
    have hno : (t1.subscribers.any (fun s => s == A)) = false := by
      simp only [ht1]
      simp [List.any_eq_true, List.mem_filter]
    set t2 : User := { t1 with subscribers := t1.subscribers ++ [A] } with ht2
    have ht2id : t2.id = T := htid
    set db2 : DB := if f2 then saveUser db t1
        else addNotif (saveUser db t1)
          { recipient := t1.id, sender := A, post := none
            type := NotifType.subscribe, read := false, createdAt := now2 }
      with hdb2def
    have step2 : toggleSubscription (saveUser db t1) A T now2 f2
        = (saveUser db2 t2, SubRes.ok true t2.subscribers.length) := by
      simp only [toggleSubscription, hf1, hAb, hno, hdb2def]
      cases f2 <;> rfl
    have hdb2 : findUser db2 T = some t1 := by
      rw [hdb2def]
      cases f2
      · exact hf1
      · exact hf1
    have hf2 : findUser (saveUser db2 t2) T = some t2 := by
      rw [findUser_saveUser_at db2 t2 T ht2id, hdb2]
      rfl
    have hlen : t2.subscribers.length = t.subscribers.length := by
      have hfl : (t.subscribers.filter (fun s => !(s == A))).length
          = t.subscribers.length - t.subscribers.count A := length_filter_ne _ _
      have hle : 1 ≤ t.subscribers.length := by
        have h1 := List.count_le_length A t.subscribers
        omega
      simp only [ht2, ht1, List.length_append, List.length_cons, List.length_nil]
      rw [hfl, hcount]
      omega
    refine ⟨t2, ?_, ?_, hlen, ?_⟩
    · rw [step1, step2]
      exact hf2
    · intro x
      simp only [ht2, ht1, List.mem_append, List.mem_filter, List.mem_singleton]
      constructor
      · rintro (⟨hx, _⟩ | rfl)
        · exact hx
        · exact hAm
      · intro hx
        by_cases hxa : x = A
        · exact Or.inr hxa
        · exact Or.inl ⟨hx, by simp [hxa]⟩
    · rw [step1, step2, hsub]
      simp only [hlen]
  · -- not subscribed: first call subscribes, second unsubscribes
    have hsub' : t.subscribers.any (fun s => s == A) = false :=
      Bool.eq_false_iff.mpr hsub
    have hALL : ∀ x ∈ t.subscribers, (x == A) = false := by
      intro x hx
      cases hxa : (x == A) with
      | false => rfl
      | true =>
        exfalso
        apply hsub
        simp only [List.any_eq_true]
        exact ⟨x, hx, hxa⟩
    set t1 : User := { t with subscribers := t.subscribers ++ [A] } with ht1
    have ht1id : t1.id = T := htid
    set db1 : DB := if f1 then db
        else addNotif db
          { recipient := t.id, sender := A, post := none
            type := NotifType.subscribe, read := false, createdAt := now1 }
      with hdb1def
    have step1 : toggleSubscription db A T now1 f1
        = (saveUser db1 t1, SubRes.ok true t1.subscribers.length) := by
      simp only [toggleSubscription, hT, hAb, hsub', hdb1def]
      cases f1 <;> rfl
    have hdb1 : findUser db1 T = some t := by
      rw [hdb1def]
      cases f1
      · exact hT
      · exact hT
    have hf1 : findUser (saveUser db1 t1) T = some t1 := by
      rw [findUser_saveUser_at db1 t1 T ht1id, hdb1]
      rfl
    have hyes : (t1.subscribers.any (fun s => s == A)) = true := by
      simp [ht1]
    set t2 : User := { t1 with subscribers := t1.subscribers.filter (fun s => !(s == A)) }
      with ht2
    have ht2id : t2.id = T := htid
    have step2 : toggleSubscription (saveUser db1 t1) A T now2 f2
        = (saveUser (saveUser db1 t1) t2, SubRes.ok false t2.subscribers.length) := by
      simp only [toggleSubscription, hf1, hAb, hyes]
      rfl
    have hf2 : findUser (saveUser (saveUser db1 t1) t2) T = some t2 := by
      rw [findUser_saveUser_at (saveUser db1 t1) t2 T ht2id, hf1]
      rfl
    have hfilter : t2.subscribers = t.subscribers := by
      simp only [ht2, ht1, List.filter_append]
      have h1 : t.subscribers.filter (fun s => !(s == A)) = t.subscribers := by
        apply List.filter_eq_self.mpr
        intro x hx
        simp [hALL x hx]
      rw [h1]
      simp
    refine ⟨t2, ?_, ?_, ?_, ?_⟩
    · rw [step1, step2]
      exact hf2
    · intro x
      rw [hfilter]
    · rw [hfilter]
    · rw [step1, step2, hsub', hfilter]

/-- Witness for C5 at a concrete state. -/
theorem toggleSubscription_twice_witness :
    ∃ t2 : User,
      findUser (toggleSubscription (toggleSubscription dbC5w 1 2 7 false).1 1 2 8 false).1 2
        = some t2
      ∧ (∀ x, x ∈ t2.subscribers ↔ x ∈ (mkUser 2 "Bob" "May" [3]).subscribers)
      ∧ t2.subscribers.length = (mkUser 2 "Bob" "May" [3]).subscribers.length
      ∧ (toggleSubscription (toggleSubscription dbC5w 1 2 7 false).1 1 2 8 false).2
          = SubRes.ok ((mkUser 2 "Bob" "May" [3]).subscribers.any (fun s => s == 1))
              (mkUser 2 "Bob" "May" [3]).subscribers.length :=
  toggleSubscription_twice dbC5w 1 2 7 8 false false (mkUser 2 "Bob" "May" [3])
    rfl (by decide) (by decide)

/-- C6: a self-subscription attempt by any existing user always answers 400
BadRequest and returns the store verbatim — no subscriber mutation and no
notification. -/
theorem selfSubscribe_badRequest (db : DB) (me now : Nat) (u : User) (nf : Bool)
    (hu : findUser db me = some u) :
    toggleSubscription db me me now nf = (db, SubRes.badRequest) := by
  unfold toggleSubscription
  rw [hu]
  simp

/-- Witness for C6 at a concrete state. -/
theorem selfSubscribe_badRequest_witness :
    toggleSubscription
      { users := [mkUser 1 "Ann" "Lee" [2]], posts := [], comments := [], notifications := [] }
      1 1 5 false
      = ({ users := [mkUser 1 "Ann" "Lee" [2]], posts := [], comments := [], notifications := [] },
         SubRes.badRequest) :=
  selfSubscribe_badRequest _ 1 5 (mkUser 1 "Ann" "Lee" [2]) false rfl

/-- C7: a successful `createPost` by an author with subscriber set S (no
duplicates, author not a member — the invariants the subscribe route
maintains) adds exactly one `post_created` notification per identity in S
referencing the new post, in particular |S| of them and none addressed to the
author; and when the notification fan-out fails, the post is still created and
the request still succeeds, with the notification store untouched. -/
theorem createPost_fanout (db : DB) (me : Nat) (u : User)
    (title raw image : String) (now newPid : Nat)
    (hu : findUser db me = some u)
    (hself : me ∉ u.subscribers)
    (hnodup : u.subscribers.Nodup)
    (hfresh : ∀ n ∈ db.notifications, n.post ≠ some newPid) :
    ((createPost db me title raw image now newPid false).1.notifications.filter
        (fun n => n.type == NotifType.post_created && n.post == some newPid))
      = u.subscribers.map (fun s => mkPostNotif s me newPid now)
    ∧ (((createPost db me title raw image now newPid false).1.notifications.filter
        (fun n => n.type == NotifType.post_created && n.post == some newPid)).map
          (fun n => n.recipient)) = u.subscribers
    ∧ ((createPost db me title raw image now newPid false).1.notifications.filter
        (fun n => n.type == NotifType.post_created && n.post == some newPid)).length
      = u.subscribers.length
    ∧ (∀ s ∈ u.subscribers,
        (((createPost db me title raw image now newPid false).1.notifications.filter
          (fun n => n.type == NotifType.post_created && n.post == some newPid)).filter
            (fun n => n.recipient == s)).length = 1)
    ∧ (((createPost db me title raw image now newPid false).1.notifications.filter
        (fun n => n.type == NotifType.post_created && n.post == some newPid)).filter
          (fun n => n.recipient == me)).length = 0
    ∧ (∃ p, (createPost db me title raw image now newPid false).2 = CreateRes.created p
        ∧ p ∈ (createPost db me title raw image now newPid false).1.posts)
    ∧ (createPost db me title raw image now newPid true).1.notifications
        = db.notifications
    ∧ (∃ p, (createPost db me title raw image now newPid true).2 = CreateRes.created p
        ∧ p ∈ (createPost db me title raw image now newPid true).1.posts) := by
  have hnots : (createPost db me title raw image now newPid false).1.notifications
      = db.notifications ++ u.subscribers.map (fun s => mkPostNotif s me newPid now) := by
    unfold createPost
    rw [hu]
    rfl
  have hold : db.notifications.filter
      (fun n => n.type == NotifType.post_created && n.post == some newPid) = [] := by
    apply List.filter_eq_nil_iff.mpr
    intro n hn
    simp [hfresh n hn]
  have hnew : (u.subscribers.map (fun s => mkPostNotif s me newPid now)).filter
      (fun n => n.type == NotifType.post_created && n.post == some newPid)
      = u.subscribers.map (fun s => mkPostNotif s me newPid now) := by
    apply List.filter_eq_self.mpr
    intro n hn
    simp only [List.mem_map] at hn
    obtain ⟨s, _, rfl⟩ := hn
    simp [mkPostNotif]
  have hfan : ((createPost db me title raw image now newPid false).1.notifications.filter
      (fun n => n.type == NotifType.post_created && n.post == some newPid))
      = u.subscribers.map (fun s => mkPostNotif s me newPid now) := by
    rw [hnots, List.filter_append, hold, hnew, List.nil_append]
  have hposts : (createPost db me title raw image now newPid false).1.posts
      = db.posts ++ [{ id := newPid, title := title,
                       content := formatContent raw,
                       author := me, firstName := u.firstName,
                       lastName := u.lastName,
                       profilePicture := u.profilePicture,
                       likes := [], image := image,
                       createdAt := now }] := by
    unfold createPost
    rw [hu]
    rfl
  have hposts' : (createPost db me title raw image now newPid true).1.posts
      = db.posts ++ [{ id := newPid, title := title,
                       content := formatContent raw,
                       author := me, firstName := u.firstName,
                       lastName := u.lastName,
                       profilePicture := u.profilePicture,
                       likes := [], image := image,
                       createdAt := now }] := by
    unfold createPost
    rw [hu]
    rfl
  refine ⟨hfan, ?_, ?_, ?_, ?_, ?_, ?_, ?_⟩
  · rw [hfan, List.map_map]
    exact List.map_id _
  · rw [hfan]
    exact List.length_map _ _
  · intro s hs
    rw [hfan, ← List.countP_eq_length_filter, List.countP_map]
    have : List.countP ((fun n => n.recipient == s) ∘ fun x => mkPostNotif x me newPid now)
        u.subscribers = u.subscribers.count s := rfl
    rw [this]
    exact List.count_eq_one_of_mem hnodup hs
  · rw [hfan, ← List.countP_eq_length_filter, List.countP_map]
    have : List.countP ((fun n => n.recipient == me) ∘ fun x => mkPostNotif x me newPid now)
        u.subscribers = u.subscribers.count me := rfl
    rw [this]
    exact List.count_eq_zero_of_not_mem hself
  · refine ⟨{ id := newPid, title := title,
              content := formatContent raw,
              author := me, firstName := u.firstName,
              lastName := u.lastName,
              profilePicture := u.profilePicture,
              likes := [], image := image,
              createdAt := now }, ?_, ?_⟩
    · unfold createPost
      rw [hu]
    · rw [hposts]
      exact List.mem_append_right _ (List.mem_singleton_self _)
  · unfold createPost
    rw [hu]
    rfl
  · refine ⟨{ id := newPid, title := title,
              content := formatContent raw,
              author := me, firstName := u.firstName,
              lastName := u.lastName,
              profilePicture := u.profilePicture,
              likes := [], image := image,
              createdAt := now }, ?_, ?_⟩
    · unfold createPost
      rw [hu]
    · rw [hposts']
      exact List.mem_append_right _ (List.mem_singleton_self _)

/-- Witness for C7 at a concrete state with subscribers {2, 3}. -/
theorem createPost_fanout_witness :
    ((createPost dbC7w 1 "t" "r" "" 5 10 false).1.notifications.filter
        (fun n => n.type == NotifType.post_created && n.post == some 10))
      = (mkUser 1 "Ann" "Lee" [2, 3]).subscribers.map (fun s => mkPostNotif s 1 10 5)
    ∧ (((createPost dbC7w 1 "t" "r" "" 5 10 false).1.notifications.filter
        (fun n => n.type == NotifType.post_created && n.post == some 10)).map
          (fun n => n.recipient)) = (mkUser 1 "Ann" "Lee" [2, 3]).subscribers
    ∧ ((createPost dbC7w 1 "t" "r" "" 5 10 false).1.notifications.filter
        (fun n => n.type == NotifType.post_created && n.post == some 10)).length
      = (mkUser 1 "Ann" "Lee" [2, 3]).subscribers.length
    ∧ (∀ s ∈ (mkUser 1 "Ann" "Lee" [2, 3]).subscribers,
        (((createPost dbC7w 1 "t" "r" "" 5 10 false).1.notifications.filter
          (fun n => n.type == NotifType.post_created && n.post == some 10)).filter
            (fun n => n.recipient == s)).length = 1)
    ∧ (((createPost dbC7w 1 "t" "r" "" 5 10 false).1.notifications.filter
        (fun n => n.type == NotifType.post_created && n.post == some 10)).filter
          (fun n => n.recipient == 1)).length = 0
    ∧ (∃ p, (createPost dbC7w 1 "t" "r" "" 5 10 false).2 = CreateRes.created p
        ∧ p ∈ (createPost dbC7w 1 "t" "r" "" 5 10 false).1.posts)
    ∧ (createPost dbC7w 1 "t" "r" "" 5 10 true).1.notifications = dbC7w.notifications
    ∧ (∃ p, (createPost dbC7w 1 "t" "r" "" 5 10 true).2 = CreateRes.created p
        ∧ p ∈ (createPost dbC7w 1 "t" "r" "" 5 10 true).1.posts) :=
  createPost_fanout dbC7w 1 (mkUser 1 "Ann" "Lee" [2, 3]) "t" "r" "" 5 10
    rfl (by decide) (by decide) (by simp [dbC7w])

/-- C8: toggling a like on an existing post: by the post's author it never
touches the notification store; by another user, the first toggle records the
like and appends exactly one `like` notification to the post's author, and the
second toggle removes the like while creating no new notification and keeping
the earlier one. -/
theorem toggleLike_notifications (db : DB) (me pid now1 now2 : Nat) (p : Post)
    (hp : findPost db pid = some p) :
    (p.author = me → (toggleLike db me pid now1).1.notifications = db.notifications)
    ∧ (p.author ≠ me → me ∉ p.likes →
        (toggleLike db me pid now1).1.notifications
            = db.notifications ++ [mkLikeNotif p.author me pid now1]
        ∧ (∃ p1, findPost (toggleLike db me pid now1).1 pid = some p1
            ∧ me ∈ p1.likes)
        ∧ (toggleLike (toggleLike db me pid now1).1 me pid now2).1.notifications
            = db.notifications ++ [mkLikeNotif p.author me pid now1]
        ∧ (∃ p2, findPost (toggleLike (toggleLike db me pid now1).1 me pid now2).1 pid
              = some p2
            ∧ me ∉ p2.likes)) := by
  have hpid : p.id = pid := findPost_id hp
  constructor
  · -- the author's own toggles never touch the notification store
    intro hown
    have hob : (p.author == me) = true := by simp [hown]
    by_cases hl : p.likes.any (fun x => x == me) = true
    · simp only [toggleLike, hp, hl]
      rfl
    · have hl' : p.likes.any (fun x => x == me) = false := Bool.eq_false_iff.mpr hl
      simp only [toggleLike, hp, hl', hob]
      rfl
  · intro hown hnl
    have hob : (p.author == me) = false := by
      simp only [beq_eq_false_iff_ne, ne_eq]
      exact hown
    have hl0 : p.likes.any (fun x => x == me) = false := any_beq_false_of_not_mem _ _ hnl
    set p1 : Post := { p with likes := p.likes ++ [me] } with hp1
    have hp1id : p1.id = pid := hpid
    have s1 : toggleLike db me pid now1
        = (savePost (addNotif db (mkLikeNotif p.author me pid now1)) p1,
           LikeRes.ok p1.likes true) := by
      simp only [toggleLike, hp, hl0, hob]
      rfl
    have s1fst : (toggleLike db me pid now1).1
        = savePost (addNotif db (mkLikeNotif p.author me pid now1)) p1 := by
      rw [s1]
    have hfp1x : findPost (savePost (addNotif db (mkLikeNotif p.author me pid now1)) p1) pid
        = some p1 := by
      rw [findPost_savePost_at _ p1 pid hp1id]
      have e : findPost (addNotif db (mkLikeNotif p.author me pid now1)) pid
          = findPost db pid := rfl
      rw [e, hp]
      rfl
    have hl1 : p1.likes.any (fun x => x == me) = true := by
      simp [hp1]
    set p2 : Post := { p1 with likes := p1.likes.filter (fun x => !(x == me)) } with hp2
    have hp2id : p2.id = pid := hpid
    have s2 : toggleLike (savePost (addNotif db (mkLikeNotif p.author me pid now1)) p1)
          me pid now2
        = (savePost (savePost (addNotif db (mkLikeNotif p.author me pid now1)) p1) p2,
           LikeRes.ok p2.likes false) := by
      simp only [toggleLike, hfp1x, hl1]
      rfl
    have s2fst : (toggleLike (savePost (addNotif db (mkLikeNotif p.author me pid now1)) p1)
          me pid now2).1
        = savePost (savePost (addNotif db (mkLikeNotif p.author me pid now1)) p1) p2 := by
      rw [s2]
    refine ⟨?_, ⟨p1, ?_, ?_⟩, ?_, ⟨p2, ?_, ?_⟩⟩
    · rw [s1fst]
      rfl
    · rw [s1fst]
      exact hfp1x
    · simp [hp1]
    · rw [s1fst, s2fst]
      rfl
    · rw [s1fst, s2fst]
      rw [findPost_savePost_at _ p2 pid hp2id, hfp1x]
      rfl
    · simp only [hp2, hp1]
      intro hmem
      simp only [List.mem_filter] at hmem
      simp at hmem

/-- Witness for C8 at a concrete state. -/
theorem toggleLike_notifications_witness :
    ((mkPost 10 2 "Bob" "May" []).author = 1 →
        (toggleLike dbC8w 1 10 5).1.notifications = dbC8w.notifications)
    ∧ ((mkPost 10 2 "Bob" "May" []).author ≠ 1 → 1 ∉ (mkPost 10 2 "Bob" "May" []).likes →
        (toggleLike dbC8w 1 10 5).1.notifications
            = dbC8w.notifications ++ [mkLikeNotif (mkPost 10 2 "Bob" "May" []).author 1 10 5]
        ∧ (∃ p1, findPost (toggleLike dbC8w 1 10 5).1 10 = some p1
            ∧ 1 ∈ p1.likes)
        ∧ (toggleLike (toggleLike dbC8w 1 10 5).1 1 10 6).1.notifications
            = dbC8w.notifications ++ [mkLikeNotif (mkPost 10 2 "Bob" "May" []).author 1 10 5]
        ∧ (∃ p2, findPost (toggleLike (toggleLike dbC8w 1 10 5).1 1 10 6).1 10 = some p2
            ∧ 1 ∉ p2.likes)) :=
  toggleLike_notifications dbC8w 1 10 5 6 (mkPost 10 2 "Bob" "May" []) rfl

/-- C9: the content stored on a created post is exactly one left-to-right pass
of the bold replacement, then one of the italic replacement, then one of the
underline replacement, applied once to the original raw input at persistence
time (the transform runs in the schema setter, on assignment, and nowhere
else in the model). -/
theorem storedContent_is_single_pass (db : DB) (me : Nat) (u : User)
    (title raw image : String) (now newPid : Nat) (nf : Bool)
    (hu : findUser db me = some u) :
    ∃ p : Post,
      (createPost db me title raw image now newPid nf).2 = CreateRes.created p
      ∧ p ∈ (createPost db me title raw image now newPid nf).1.posts
      ∧ p.content = fmtUnderline (fmtItalic (fmtBold raw))
      ∧ formatContent raw = fmtUnderline (fmtItalic (fmtBold raw)) := by
  refine ⟨{ id := newPid, title := title,
            content := formatContent raw,
            author := me, firstName := u.firstName,
            lastName := u.lastName,
            profilePicture := u.profilePicture,
            likes := [], image := image,
            createdAt := now }, ?_, ?_, rfl, rfl⟩
  · cases nf <;> (unfold createPost; rw [hu])
  · have hposts : (createPost db me title raw image now newPid nf).1.posts
        = db.posts ++ [{ id := newPid, title := title,
                         content := formatContent raw,
                         author := me, firstName := u.firstName,
                         lastName := u.lastName,
                         profilePicture := u.profilePicture,
                         likes := [], image := image,
                         createdAt := now }] := by
      cases nf <;> (unfold createPost; rw [hu]) <;> rfl
    rw [hposts]
    exact List.mem_append_right _ (List.mem_singleton_self _)

/-- Witness for C9 at a concrete raw input. -/
theorem storedContent_is_single_pass_witness :
    ∃ p : Post,
      (createPost dbC9w 1 "t" "**b** *i* __u__" "" 5 10 false).2 = CreateRes.created p
      ∧ p ∈ (createPost dbC9w 1 "t" "**b** *i* __u__" "" 5 10 false).1.posts
      ∧ p.content = fmtUnderline (fmtItalic (fmtBold "**b** *i* __u__"))
      ∧ formatContent "**b** *i* __u__" = fmtUnderline (fmtItalic (fmtBold "**b** *i* __u__")) :=
  storedContent_is_single_pass dbC9w 1 (mkUser 1 "Ann" "Lee" []) "t" "**b** *i* __u__" "" 5 10
    false rfl

/-- C10: listing notifications returns at most 10 records, in descending
creation-time order, while the returned unread count counts all of the
recipient's unread notifications (computed over the full store, not the
returned page). -/
theorem listNotifications_spec (db : DB) (me : Nat) :
    (listNotifications db me).1.length ≤ 10
    ∧ List.Sorted notifDesc (listNotifications db me).1
    ∧ (listNotifications db me).2
        = ((db.notifications.filter (fun n => n.recipient == me)).filter
            (fun n => n.read == false)).length := by
  refine ⟨?_, ?_, ?_⟩
  · simp [listNotifications, List.length_take]
  · exact List.Pairwise.sublist (List.take_sublist _ _)
      (List.sorted_insertionSort notifDesc _)
  · simp [listNotifications, List.filter_filter, Bool.and_comm]
